import Mathlib

/-!
Verification development for the portfolio-builder backend.

The definitions below are shallow embeddings of the JavaScript source:
JSON documents become an inductive `Json` value type, JavaScript object
spreads and property accesses become explicit functions on association
lists, and the fallible service calls (OpenAI, database) become explicit
oracle parameters.  Machine behaviour such as `JSON.parse`, the fenced
code-block recovery regex, slug generation and the enhancement merge is
translated function-by-function from the source files.
-/

namespace PortfolioBuilder

/-- JavaScript JSON values, as produced by `JSON.parse`.  Numeric literals
are kept verbatim (the claims never compute with them). -/
inductive Json where
  | null : Json
  | bool (b : Bool) : Json
  | num (lit : String) : Json
  | str (s : String) : Json
  | arr (elems : List Json) : Json
  | obj (fields : List (String × Json)) : Json
deriving Repr

/-- Property lookup `v[k]` on a parsed JSON value: returns the field of an
object, `none` (JavaScript `undefined`) otherwise.  Objects built by
`JSON.parse` and by spreads have unique keys, so first-match lookup is
exact. -/
def Json.getField : Json → String → Option Json
  | .obj fields, k => (fields.find? (fun kv => kv.1 == k)).map Prod.snd
  | _, _ => none

/-- JavaScript truthiness of a JSON value (`undefined` is handled by the
callers via `Option`). -/
def Json.truthy : Json → Bool
  | .null => false
  | .bool b => b
  | .num lit => ¬(lit == "0" || lit == "-0" || lit == "0.0")
  | .str s => s ≠ ""
  | .arr _ => true
  | .obj _ => true

/-- Top-level keys of an object value, in insertion order. -/
def Json.keys : Json → List String
  | .obj fields => fields.map Prod.fst
  | _ => []

/-- Whether an object value carries the given top-level key. -/
def Json.hasKey (v : Json) (k : String) : Bool :=
  v.keys.contains k

/-- Assigning `k := v` on a JavaScript object: an existing key keeps its
position and gets the new value, a new key is appended. -/
def insertKV (fields : List (String × Json)) (k : String) (v : Json) :
    List (String × Json) :=
  if fields.any (fun kv => kv.1 == k) then
    fields.map (fun kv => if kv.1 == k then (kv.1, v) else kv)
  else
    fields ++ [(k, v)]

/-- The object spread `{...old, ...new}` restricted to two field lists. -/
def spreadKVs (old new : List (String × Json)) : List (String × Json) :=
  new.foldl (fun acc kv => insertKV acc kv.1 kv.2) old

/-- The JavaScript spread `{...old, ...v}` for an arbitrary value `v`:
objects contribute their fields, strings and arrays contribute their
indexed elements, primitives contribute nothing. -/
def spreadValue (old : List (String × Json)) : Json → List (String × Json)
  | .obj fields => spreadKVs old fields
  | .str s => spreadKVs old
      ((s.toList.enum).map (fun ci => (toString ci.1, Json.str (String.mk [ci.2]))))
  | .arr elems => spreadKVs old
      ((elems.enum).map (fun ei => (toString ei.1, ei.2)))
  | _ => old

/-! ### `JSON.parse`

A recursive-descent parser for JSON text, modelling JavaScript's
`JSON.parse`: `none` models a thrown `SyntaxError`.  Numeric literals are
kept verbatim in `Json.num`. -/

/-- JSON whitespace accepted between tokens by `JSON.parse`. -/
def isJsonWs (c : Char) : Bool :=
  c == ' ' || c == '\t' || c == '\n' || c == '\r'

/-- Drop leading JSON whitespace. -/
def skipWs (cs : List Char) : List Char :=
  cs.dropWhile isJsonWs

/-- Hexadecimal digit value, for `\uXXXX` escapes. -/
def hexVal (c : Char) : Option Nat :=
  if '0' ≤ c ∧ c ≤ '9' then some (c.toNat - '0'.toNat)
  else if 'a' ≤ c ∧ c ≤ 'f' then some (c.toNat - 'a'.toNat + 10)
  else if 'A' ≤ c ∧ c ≤ 'F' then some (c.toNat - 'A'.toNat + 10)
  else none

/-- Body of a JSON string literal, after the opening quote.  Returns the
decoded string and the input following the closing quote. -/
def parseStringBody (acc : List Char) : List Char → Option (String × List Char)
  | [] => none
  | '"' :: rest => some (String.mk acc.reverse, rest)
  | '\\' :: 'u' :: h1 :: h2 :: h3 :: h4 :: rest =>
    match hexVal h1, hexVal h2, hexVal h3, hexVal h4 with
    | some a, some b, some c, some d =>
      parseStringBody (Char.ofNat (((a * 16 + b) * 16 + c) * 16 + d) :: acc) rest
    | _, _, _, _ => none
  | '\\' :: e :: rest =>
    if e == '"' then parseStringBody ('"' :: acc) rest
    else if e == '\\' then parseStringBody ('\\' :: acc) rest
    else if e == '/' then parseStringBody ('/' :: acc) rest
    else if e == 'b' then parseStringBody ('\x08' :: acc) rest
    else if e == 'f' then parseStringBody ('\x0c' :: acc) rest
    else if e == 'n' then parseStringBody ('\n' :: acc) rest
    else if e == 'r' then parseStringBody ('\r' :: acc) rest
    else if e == 't' then parseStringBody ('\t' :: acc) rest
    else none
  | c :: rest => parseStringBody (c :: acc) rest

/-- Leading run of decimal digits. -/
def takeDigits (cs : List Char) : List Char × List Char :=
  cs.span Char.isDigit

/-- A JSON numeric literal (kept verbatim), per the `JSON.parse` grammar. -/
def parseNumberLit (cs : List Char) : Option (Json × List Char) :=
  let (sign, cs1) := match cs with
    | '-' :: r => (['-'], r)
    | _ => (([] : List Char), cs)
  let (intPart, cs2) := takeDigits cs1
  if intPart.isEmpty then none
  else
    let (fracPart, cs3) := match cs2 with
      | '.' :: r =>
        let (d, r2) := takeDigits r
        if d.isEmpty then (none, cs2) else (some ('.' :: d), r2)
      | _ => (none, cs2)
    match fracPart, cs2 with
    | none, '.' :: _ => none
    | _, _ =>
      let (expPart, cs4) := match cs3 with
        | 'e' :: r => expTail 'e' r
        | 'E' :: r => expTail 'E' r
        | _ => (none, cs3)
      match expPart, cs3 with
      | none, 'e' :: _ => none
      | none, 'E' :: _ => none
      | _, _ =>
        some (Json.num (String.mk (sign ++ intPart ++ fracPart.getD [] ++ expPart.getD [])),
              cs4)
where
  /-- Exponent continuation after `e`/`E`. -/
  expTail (e : Char) (r : List Char) : Option (List Char) × List Char :=
    let (sgn, r1) := match r with
      | '+' :: r2 => (['+'], r2)
      | '-' :: r2 => (['-'], r2)
      | _ => (([] : List Char), r)
    let (d, r2) := takeDigits r1
    if d.isEmpty then (none, r) else (some (e :: (sgn ++ d)), r2)

mutual

/-- One JSON value, fuel-bounded recursive descent. -/
def parseValue : Nat → List Char → Option (Json × List Char)
  | 0, _ => none
  | fuel + 1, cs =>
    match skipWs cs with
    | 'n' :: 'u' :: 'l' :: 'l' :: rest => some (.null, rest)
    | 't' :: 'r' :: 'u' :: 'e' :: rest => some (.bool true, rest)
    | 'f' :: 'a' :: 'l' :: 's' :: 'e' :: rest => some (.bool false, rest)
    | '"' :: rest => (parseStringBody [] rest).map (fun sr => (.str sr.1, sr.2))
    | '[' :: rest =>
      (match skipWs rest with
       | ']' :: r2 => some (.arr [], r2)
       | _ => parseArrayItems fuel rest [])
    | '{' :: rest =>
      (match skipWs rest with
       | '}' :: r2 => some (.obj [], r2)
       | _ => parseObjItems fuel rest [])
    | rest => parseNumberLit rest

/-- Elements of a JSON array, after `[`. -/
def parseArrayItems : Nat → List Char → List Json → Option (Json × List Char)
  | 0, _, _ => none
  | fuel + 1, cs, acc =>
    match parseValue fuel cs with
    | none => none
    | some (v, r) =>
      match skipWs r with
      | ',' :: r2 => parseArrayItems fuel r2 (acc ++ [v])
      | ']' :: r2 => some (.arr (acc ++ [v]), r2)
      | _ => none

/-- Members of a JSON object, after `{`; a duplicated key overwrites the
earlier value in place, as in JavaScript. -/
def parseObjItems : Nat → List Char → List (String × Json) →
    Option (Json × List Char)
  | 0, _, _ => none
  | fuel + 1, cs, acc =>
    match skipWs cs with
    | '"' :: rest =>
      match parseStringBody [] rest with
      | none => none
      | some (k, r) =>
        match skipWs r with
        | ':' :: r2 =>
          match parseValue fuel r2 with
          | none => none
          | some (v, r3) =>
            match skipWs r3 with
            | ',' :: r4 => parseObjItems fuel r4 (insertKV acc k v)
            | '}' :: r4 => some (.obj (insertKV acc k v), r4)
            | _ => none
        | _ => none
    | _ => none

end

/-- `JSON.parse(s)`: parse one value, then require only whitespace to
remain.  `none` models a thrown `SyntaxError`. -/
def jsonParse (s : String) : Option Json :=
  match parseValue (2 * s.length + 2) s.toList with
  | some (v, rest) =>
    match skipWs rest with
    | [] => some v
    | _ => none
  | none => none

/-- Index of the first occurrence of `needle` in `hay`, if any. -/
def findSub (needle : List Char) : List Char → Option Nat
  | [] => if needle.isEmpty then some 0 else none
  | c :: rest =>
    if needle.isPrefixOf (c :: rest) then some 0
    else (findSub needle rest).map (· + 1)

/-- The fenced-code-block recovery of `_parsePortfolioContent`
(part_003 line 363): the capture of the first match of
/&#96;&#96;&#96;json\n([\s\S]*?)\n&#96;&#96;&#96;/ in the text. -/
def extractFencedJson (content : String) : Option String :=
  let cs := content.toList
  let opener := "```json\n".toList
  match findSub opener cs with
  | none => none
  | some i =>
    let after := cs.drop (i + opener.length)
    match findSub "\n```".toList after with
    | none => none
    | some j => some (String.mk (after.take j))

/-- The static fallback document of `_parsePortfolioContent`
(part_003 lines 373-378): keys `hero`, `about`, `projects`, `contact`
only. -/
def fallbackPortfolioContent : Json :=
  .obj [("hero", .obj [("name", .str ""), ("title", .str ""), ("bio", .str "")]),
        ("about", .obj [("description", .str ""), ("skills", .arr []),
                        ("interests", .arr [])]),
        ("projects", .arr []),
        ("contact", .obj [("email", .str "")])]

/-- `AIService._parsePortfolioContent` (part_003 lines 357-380): direct
`JSON.parse`, then fenced-block recovery, then the static fallback. -/
def parsePortfolioContent (content : String) : Json :=
  match jsonParse content with
  | some v => v
  | none =>
    match extractFencedJson content with
    | some inner =>
      match jsonParse inner with
      | some v => v
      | none => fallbackPortfolioContent
    | none => fallbackPortfolioContent

/-- `AIService._parseSectionContent` (part_003 lines 382-390): direct
`JSON.parse`, else wrap the raw text under the section key. -/
def parseSectionContent (content : String) (sectionName : String) : Json :=
  match jsonParse content with
  | some v => v
  | none => .obj [(sectionName, .str content)]

/-! ### AI service (part_003)

The OpenAI chat-completion call is an external collaborator: each call is
represented by a `ModelOutcome` oracle value — the raw text and token count
on success, or the thrown error's `code` on failure. -/

/-- Outcome of one OpenAI chat-completion call. -/
inductive ModelOutcome where
  | success (text : String) (tokens : Nat) : ModelOutcome
  | failure (code : String) : ModelOutcome
deriving Repr

/-- Parsed result of an AI service method (part_003 lines 40-45). -/
structure AIResult where
  content : Json
  tokensUsed : Nat
  model : String
deriving Repr

/-- `this.models.primary` (part_003 line 10). -/
def primaryModel : String := "gpt-4"

/-- `this.models.fallback` (part_003 line 11). -/
def fallbackModel : String := "gpt-3.5-turbo"

/-- `this.models.cheap` (part_003 line 12). -/
def cheapModel : String := "gpt-3.5-turbo"

/-- `AIService._generateWithFallback` (part_003 lines 423-456): one call
against the fallback model; its errors are rethrown. -/
def generateWithFallback (fallbackCall : ModelOutcome) : Except String AIResult :=
  match fallbackCall with
  | .success text tokens => .ok ⟨parsePortfolioContent text, tokens, fallbackModel⟩
  | .failure code => .error code

/-- `AIService.generatePortfolio` (part_003 lines 17-56): primary-model
call; on a thrown error with `code === "model_overloaded"` retry once via
`_generateWithFallback`, any other error is rethrown. -/
def aiGeneratePortfolio (primaryCall fallbackCall : ModelOutcome) :
    Except String AIResult :=
  match primaryCall with
  | .success text tokens => .ok ⟨parsePortfolioContent text, tokens, primaryModel⟩
  | .failure code =>
    if code == "model_overloaded" then generateWithFallback fallbackCall
    else .error code

/-- `AIService.enhanceSection` (part_003 lines 59-97): one cheap-model
call, parsed by `_parseSectionContent`; errors are rethrown, no fallback. -/
def aiEnhanceSection (call : ModelOutcome) (sectionName : String) :
    Except String AIResult :=
  match call with
  | .success text tokens => .ok ⟨parseSectionContent text sectionName, tokens, cheapModel⟩
  | .failure code => .error code

/-! ### Portfolio model (src/backend/models/Portfolio.js) -/

/-- The `{...a, ...b}` object-literal merge of two JSON values. -/
def jsMerge2 (a b : Json) : Json :=
  .obj (spreadValue (spreadValue [] a) b)

/-- The `{...content, [k]: v}` object literal: spread then computed-key
assignment. -/
def setKeyOn (content : Json) (k : String) (v : Json) : Json :=
  .obj (insertKV (spreadValue [] content) k v)

/-- The Portfolio record fields relevant to the core (Portfolio.js
lines 5-113). -/
structure Portfolio where
  id : String
  user_id : String
  title : String
  slug : String
  status : String
  template_id : String
  content : Json
  generated_html : Option String
  generated_css : Option String
  generated_js : Option String
deriving Repr

/-- `Portfolio.prototype.updateContent` (Portfolio.js lines 135-138):
`this.content = { ...this.content, ...newContent }` then save.  It does
not touch `generated_html`, `generated_css` or `generated_js`. -/
def Portfolio.updateContent (p : Portfolio) (newContent : Json) : Portfolio :=
  { p with content := jsMerge2 p.content newContent }

/-- The characters JavaScript's `\s` matches (ASCII part), used by the two
slug regexes. -/
def jsWs (c : Char) : Bool :=
  c == ' ' || c == '\t' || c == '\n' || c == '\r' || c == '\x0b' || c == '\x0c'

/-- Characters kept by `replace(/[^a-zA-Z0-9\s]/g, "")`. -/
def slugKeep (c : Char) : Bool :=
  ('a' ≤ c && c ≤ 'z') || ('A' ≤ c && c ≤ 'Z') || ('0' ≤ c && c ≤ '9') || jsWs c

/-- `replace(/\s+/g, "-")`, one character at a time: the flag records
whether the previous character belonged to a whitespace run whose hyphen
is already emitted. -/
def collapseGo : Bool → List Char → List Char
  | _, [] => []
  | inWs, c :: rest =>
    if jsWs c then
      if inWs then collapseGo true rest
      else '-' :: collapseGo true rest
    else c :: collapseGo false rest

/-- `replace(/\s+/g, "-")`: each maximal whitespace run becomes one
hyphen. -/
def collapseWsToHyphen (l : List Char) : List Char :=
  collapseGo false l

/-- The base slug of `Portfolio.generateSlug` (Portfolio.js lines 169-173):
lower-case, strip non-alphanumeric/non-whitespace, collapse whitespace to
hyphens, truncate to 50 characters. -/
def baseSlugOf (title : String) : String :=
  String.mk ((collapseWsToHyphen ((title.toList.map Char.toLower).filter slugKeep)).take 50)

/-- The sequence of slugs the `while` loop tries: the base slug, then
`base-1`, `base-2`, … . -/
def slugCandidate (base : String) : Nat → String
  | 0 => base
  | n + 1 => base ++ "-" ++ toString (n + 1)

/-- The `while (await this.findByUserAndSlug(userId, slug))` loop of
`Portfolio.generateSlug` (Portfolio.js lines 175-184), fuel-bounded; the
owner's existing slugs are passed as a list. -/
def generateSlugLoop (existing : List String) (base : String) :
    Nat → String → Nat → String
  | 0, slug, _ => slug
  | fuel + 1, slug, counter =>
    if existing.contains slug then
      generateSlugLoop existing base fuel (base ++ "-" ++ toString counter) (counter + 1)
    else slug

/-- `Portfolio.generateSlug` (Portfolio.js lines 167-185).  The fuel
`existing.length + 1` is enough because the candidate slugs are pairwise
distinct, so at most `existing.length` of them can collide. -/
def generateSlug (existing : List String) (title : String) : String :=
  let base := baseSlugOf title
  generateSlugLoop existing base (existing.length + 1) base 1

/-! ### Source normalizer (src/backend/services/portfolioGenerator.js
lines 187-292) -/

/-- One source descriptor: `{type, data}`. -/
structure Source where
  type : String
  data : Json
deriving Repr

/-- JavaScript `a || b` over possibly-undefined values. -/
def jsOr (a b : Option Json) : Option Json :=
  match a with
  | some v => if v.truthy then some v else b
  | none => b

/-- `_processPromptSource` (portfolioGenerator.js lines 271-281):
`description: source.data.description || source.data.prompt`,
`preferences: source.data.preferences || {}` (an undefined result is kept
as `null`, which stringifies the same under the later prompt building). -/
def processPromptSource (s : Source) : Source :=
  { type := "prompt",
    data := .obj
      [("description",
        (jsOr (s.data.getField "description") (s.data.getField "prompt")).getD .null),
       ("preferences",
        (match jsOr (s.data.getField "preferences") none with
         | some v => v
         | none => .obj []))] }

/-- Oracles for the externally-fallible per-source processing: the GitHub
fetch-and-extract of `_processGitHubSource` (lines 221-247) and the
AI résumé parse of `_processResumeSource` (lines 249-269); an `error`
models the thrown exception. -/
structure SourceEnv where
  github : Json → Except String Json
  resume : Json → Except String Json

/-- The `switch (source.type)` body of `_processSources`
(portfolioGenerator.js lines 192-209): the `default` branch only logs a
warning, leaving the pass-through `{ type, data }` value intact. -/
def processOneSource (env : SourceEnv) (s : Source) : Except String Source :=
  match s.type with
  | "github" => (env.github s.data).map (fun d => ⟨"github", d⟩)
  | "resume" => (env.resume s.data).map (fun d => ⟨"resume", d⟩)
  | "prompt" => .ok (processPromptSource s)
  | "linkedin" => .ok ⟨"linkedin", s.data⟩
  | _ => .ok ⟨s.type, s.data⟩

/-- `_processSources` (portfolioGenerator.js lines 187-219): each source is
processed inside its own try/catch; a thrown error skips the push and
processing continues with the remaining sources. -/
def processSources (env : SourceEnv) : List Source → List Source
  | [] => []
  | s :: rest =>
    match processOneSource env s with
    | .ok p => p :: processSources env rest
    | .error _ => processSources env rest

/-! ### Iteration bookkeeping (part_005) and the orchestrator
(src/backend/services/portfolioGenerator.js) -/

/-- One observable status event on the Iteration record of a single
orchestrator run: its creation, or a `markCompleted`/`markFailed`
transition (part_005 lines 99-111 set the status and save). -/
inductive IterEvent where
  | created (iterationType : String) (status : String) : IterEvent
  | statusSet (status : String) : IterEvent
deriving Repr, DecidableEq

/-- `PortfolioIteration.create`: the model declares
`portfolio_id: { allowNull: false }` (part_005 lines 11-19), so creation
with a null `portfolio_id` is rejected with a validation error instead of
producing a record. -/
def portfolioIterationCreate (portfolioId : Option String)
    (iterationType status : String) : Except String IterEvent :=
  match portfolioId with
  | none => .error "notNull Violation: PortfolioIteration.portfolio_id cannot be null"
  | some _ => .ok (.created iterationType status)

/-- `aiResult.content[section] || aiResult.content`
(portfolioGenerator.js line 127). -/
def sectionMergeValue (aiContent : Json) (sectionName : String) : Json :=
  match aiContent.getField sectionName with
  | some v => if v.truthy then v else aiContent
  | none => aiContent

/-- Oracle outcomes of the model calls an `enhancePortfolio` run can
make: the cheap-model section call, and the primary/fallback pair of the
whole-portfolio regeneration. -/
structure EnhanceEnv where
  sectionCall : ModelOutcome
  primaryCall : ModelOutcome
  fallbackCall : ModelOutcome

/-- What one `enhancePortfolio` run returns and leaves behind. -/
structure EnhanceOutcome where
  success : Bool
  error : Option String
  portfolio : Option Portfolio
  tokensUsed : Nat
  events : List IterEvent
deriving Repr

/-- `PortfolioGeneratorService.enhancePortfolio`
(portfolioGenerator.js lines 87-184).  `portfolio?` is the result of
`Portfolio.findByPk`; the section path merges
`{...portfolio.content, [section]: aiResult.content[section] || aiResult.content}`
(lines 125-128), the whole-document path merges
`{...portfolio.content, ...aiResult.content}` (lines 142-145); either is
then persisted through `updateContent` and the iteration is marked
completed, while a thrown error marks it failed. -/
def enhancePortfolio (env : EnhanceEnv) (portfolio? : Option Portfolio)
    (sectionName : Option String) : EnhanceOutcome :=
  match portfolio? with
  | none => ⟨false, some "Portfolio not found", none, 0, []⟩
  | some p =>
    match portfolioIterationCreate (some p.id) "enhance" "pending" with
    | .error e => ⟨false, some e, some p, 0, []⟩
    | .ok ev0 =>
      let aiOutcome : Except String (Json × Nat) :=
        match sectionName with
        | some s =>
          (aiEnhanceSection env.sectionCall s).map
            (fun r => (setKeyOn p.content s (sectionMergeValue r.content s), r.tokensUsed))
        | none =>
          (aiGeneratePortfolio env.primaryCall env.fallbackCall).map
            (fun r => (jsMerge2 p.content r.content, r.tokensUsed))
      match aiOutcome with
      | .error e => ⟨false, some e, some p, 0, [ev0, .statusSet "failed"]⟩
      | .ok (enhancedContent, tokens) =>
        let p' := p.updateContent enhancedContent
        ⟨true, none, some p', tokens, [ev0, .statusSet "completed"]⟩

mutual

/-- `content.hero?.name || "Portfolio"` and the title formatting of
`_generatePortfolioTitle` need value-to-string interpolation; this is
JavaScript's string conversion of a JSON value. -/
def Json.display : Json → String
  | .null => "null"
  | .bool true => "true"
  | .bool false => "false"
  | .num lit => lit
  | .str s => s
  | .arr elems => String.intercalate "," (Json.displayList elems)
  | .obj _ => "[object Object]"

/-- String conversions of the elements of an array value. -/
def Json.displayList : List Json → List String
  | [] => []
  | x :: xs => Json.display x :: Json.displayList xs

end

/-- `_generatePortfolioTitle` (portfolioGenerator.js lines 295-304). -/
def generatePortfolioTitle (content : Json) : String :=
  let heroName := (content.getField "hero").bind (fun h => h.getField "name")
  let nameDisplay := match heroName with
    | some v => if v.truthy then v.display else "Portfolio"
    | none => "Portfolio"
  let heroTitle := (content.getField "hero").bind (fun h => h.getField "title")
  match heroTitle with
  | some v =>
    if v.truthy then nameDisplay ++ " - " ++ v.display
    else nameDisplay ++ "\x27s Portfolio"
  | none => nameDisplay ++ "\x27s Portfolio"

/-- Oracles and ambient state of one `generatePortfolio` run. -/
structure GenerateEnv where
  sourceEnv : SourceEnv
  primaryCall : ModelOutcome
  fallbackCall : ModelOutcome
  existingSlugs : List String
  newPortfolioId : String

/-- What one `generatePortfolio` run returns and leaves behind. -/
structure GenerateOutcome where
  success : Bool
  error : Option String
  portfolio : Option Portfolio
  events : List IterEvent
deriving Repr

/-- `PortfolioGeneratorService.generatePortfolio`
(portfolioGenerator.js lines 11-84).  The run starts with
`PortfolioIteration.create({ portfolio_id: null, ... })` (lines 17-22);
because the model rejects a null `portfolio_id`, that create throws, the
catch block finds `iteration === null`, and the run returns a failure
without any iteration record. -/
def generatePortfolio (env : GenerateEnv) (userId : String)
    (sources : List Source) (preferences : Json) : GenerateOutcome :=
  match portfolioIterationCreate none "generate" "pending" with
  | .error e => ⟨false, some e, none, []⟩
  | .ok ev0 =>
    let _processed := processSources env.sourceEnv sources
    match aiGeneratePortfolio env.primaryCall env.fallbackCall with
    | .error e => ⟨false, some e, none, [ev0, .statusSet "failed"]⟩
    | .ok aiR =>
      let title := generatePortfolioTitle aiR.content
      let templateId := match preferences.getField "template_id" with
        | some v => if v.truthy then v.display else "modern-dev"
        | none => "modern-dev"
      let slug := generateSlug env.existingSlugs title
      let p : Portfolio :=
        { id := env.newPortfolioId, user_id := userId, title := title,
          slug := slug, status := "draft", template_id := templateId,
          content := aiR.content, generated_html := none,
          generated_css := none, generated_js := none }
      ⟨true, none, some p, [ev0, .statusSet "completed"]⟩

/-! ### Template engine (part_004)

Compiled Handlebars templates are rendering functions `Json → String`; the
registry maps (`this.compiledTemplates`, populated once at startup) are
association lists.  The per-call environment reads — the template's
`style.css`/`script.js` files and `new Date().getFullYear()` — are explicit
arguments. -/

/-- `portfolioContent.projects && portfolioContent.projects.length > 0`
(part_004 lines 251-253): truthy whole value, and a `length` property
greater than zero. -/
def jsHasItems : Option Json → Bool
  | some (.arr elems) => !elems.isEmpty
  | some (.str s) => !s.isEmpty
  | _ => false

/-- The `defaultContent` literal of `_prepareTemplateData`
(part_004 lines 220-242). -/
def defaultTemplateContent : Json :=
  .obj [("hero", .obj [("name", .str ""), ("title", .str ""), ("bio", .str ""),
                       ("image", .str ""), ("social_links", .obj [])]),
        ("about", .obj [("description", .str ""), ("skills", .arr []),
                        ("interests", .arr [])]),
        ("projects", .arr []),
        ("experience", .arr []),
        ("education", .arr []),
        ("contact", .obj [("email", .str ""), ("phone", .str ""),
                          ("location", .str ""), ("social_links", .obj [])])]

/-- `_prepareTemplateData` (part_004 lines 218-257):
`{...defaultContent, ...portfolioContent, template_config, current_year,
has_projects, has_experience, has_education}` where `current_year` is
`new Date().getFullYear()` — a per-call clock read, passed here as the
`year` argument. -/
def prepareTemplateData (portfolioContent : Json) (config : Option Json)
    (year : Nat) : Json :=
  let base := spreadValue (spreadValue [] defaultTemplateContent) portfolioContent
  let d1 := insertKV base "template_config"
    (match config with
     | some c => if c.truthy then c else .obj []
     | none => .obj [])
  let d2 := insertKV d1 "current_year" (.num (toString year))
  let d3 := insertKV d2 "has_projects"
    (.bool (jsHasItems (portfolioContent.getField "projects")))
  let d4 := insertKV d3 "has_experience"
    (.bool (jsHasItems (portfolioContent.getField "experience")))
  let d5 := insertKV d4 "has_education"
    (.bool (jsHasItems (portfolioContent.getField "education")))
  .obj d5

/-- `_createCompleteHTML` (part_004 lines 259-300): the complete-document
template literal around the rendered body, CSS and JS. -/
def createCompleteHTML (bodyHTML css js : String) (templateData : Json) :
    String :=
  let heroName := (templateData.getField "hero").bind (fun h => h.getField "name")
  let title := match heroName with
    | some v => if v.truthy then v.display ++ " - Portfolio" else "Portfolio"
    | none => "Portfolio"
  let heroBio := (templateData.getField "hero").bind (fun h => h.getField "bio")
  let description := match heroBio with
    | some v => if v.truthy then v.display else "Professional Portfolio"
    | none => "Professional Portfolio"
  let author := match heroName with
    | some v => if v.truthy then v.display else ""
    | none => ""
  String.intercalate "\n"
    ["<!DOCTYPE html>",
     "<html lang=\"en\">",
     "<head>",
     "    <meta charset=\"UTF-8\">",
     "    <meta name=\"viewport\" content=\"width=device-width, initial-scale=1.0\">",
     "    <title>" ++ title ++ "</title>",
     "    <meta name=\"description\" content=\"" ++ description ++ "\">",
     "    <meta name=\"author\" content=\"" ++ author ++ "\">",
     "    ",
     "    <!-- Open Graph -->",
     "    <meta property=\"og:title\" content=\"" ++ title ++ "\">",
     "    <meta property=\"og:description\" content=\"" ++ description ++ "\">",
     "    <meta property=\"og:type\" content=\"website\">",
     "    ",
     "    <!-- Font Awesome -->",
     "    <link rel=\"stylesheet\" href=\"https://cdnjs.cloudflare.com/ajax/libs/font-awesome/6.0.0/css/all.min.css\">",
     "    ",
     "    <!-- Google Fonts -->",
     "    <link rel=\"preconnect\" href=\"https://fonts.googleapis.com\">",
     "    <link rel=\"preconnect\" href=\"https://fonts.gstatic.com\" crossorigin>",
     "    <link href=\"https://fonts.googleapis.com/css2?family=Raleway:wght@300;400;500;600;700&display=swap\" rel=\"stylesheet\">",
     "    ",
     "    <style>",
     "        " ++ css,
     "    </style>",
     "</head>",
     "<body>",
     "    " ++ bodyHTML,
     "    ",
     "    <script>",
     "        " ++ js,
     "    </script>",
     "</body>",
     "</html>"]

/-- The rendered `{html, css, js, template}` artifact
(part_004 lines 65-71). -/
structure RenderArtifact where
  html : String
  css : String
  js : String
  template : String
deriving Repr, DecidableEq

/-- The successful body of `generateHTML` (part_004 lines 49-71): prepare
the template data, run the compiled template, and assemble the complete
document around the CSS/JS file texts. -/
def renderWithTemplate (tmpl : Json → String) (config : Option Json)
    (cssFile jsFile : String) (year : Nat) (portfolioContent : Json)
    (templateId : String) : RenderArtifact :=
  let templateData := prepareTemplateData portfolioContent config year
  let html := tmpl templateData
  ⟨createCompleteHTML html cssFile jsFile templateData, cssFile, jsFile,
   templateId⟩

/-- `generateHTML` (part_004 lines 39-79): look the compiled template and
its config up by id (a missing id throws, caught into a failure result),
then render (`renderWithTemplate`); the template's CSS and JS files are
read per call (`cssFile`/`jsFile` arguments). -/
def generateHTML (templates : List (String × (Json → String)))
    (configs : List (String × Json)) (cssFile jsFile : String) (year : Nat)
    (portfolioContent : Json) (templateId : String) :
    Except String RenderArtifact :=
  match (templates.find? (fun kv => kv.1 == templateId)).map Prod.snd with
  | none => .error ("Template \x27" ++ templateId ++ "\x27 not found")
  | some tmpl =>
    .ok (renderWithTemplate tmpl
      ((configs.find? (fun kv => kv.1 == templateId)).map Prod.snd)
      cssFile jsFile year portfolioContent templateId)

/-- A Handlebars `\x7b\x7bexpr\x7d\x7d` emission: the field's string
conversion, or empty when the field is missing. -/
def hbOut : Option Json → String
  | some v => v.display
  | none => ""

/-- The footer line of the modern-dev Handlebars template
(part_001 line 1796):
`<p>&copy; \x7b\x7bcurrent_year\x7d\x7d \x7b\x7bhero.name\x7d\x7d. Built with Portfolio Builder.</p>`.
It stands in for the full compiled template wherever only the footer's
dependence on `current_year` matters. -/
def modernDevFooterFragment (templateData : Json) : String :=
  "        <p>&copy; " ++ hbOut (templateData.getField "current_year") ++ " "
    ++ hbOut ((templateData.getField "hero").bind (fun h => h.getField "name"))
    ++ ". Built with Portfolio Builder.</p>"

/-! ### Preview route (src/backend/routes/portfolios.js lines 1024-1067) -/

/-- `Portfolio.prototype.setGeneratedFiles` (Portfolio.js lines 140-145):
`generated_html` is always assigned; `generated_css`/`generated_js` only
when truthy (non-empty). -/
def Portfolio.setGeneratedFiles (p : Portfolio) (html css js : String) :
    Portfolio :=
  { p with
      generated_html := some html,
      generated_css := if css.isEmpty then p.generated_css else some css,
      generated_js := if js.isEmpty then p.generated_js else some js }

/-- The preview handler body (portfolios.js lines 1030-1057): serve
`portfolio.generated_html` when it is set, otherwise render through the
template engine, cache via `setGeneratedFiles`, and serve the fresh HTML.
Returns the served HTML and the portfolio state after the request. -/
def previewPortfolio (templates : List (String × (Json → String)))
    (configs : List (String × Json)) (cssFile jsFile : String) (year : Nat)
    (p : Portfolio) : Except String (String × Portfolio) :=
  match p.generated_html with
  | some cached => .ok (cached, p)
  | none =>
    match generateHTML templates configs cssFile jsFile year p.content p.template_id with
    | .error e => .error e
    | .ok art => .ok (art.html, p.setGeneratedFiles art.html art.css art.js)

/-! ### Repeated slug generation and decimal-string helpers -/

/-- `N` successive portfolio creations with the same owner and title: each
run draws the slug from the slugs existing at that point and persists it. -/
def createSlugs (existing : List String) (title : String) : Nat → List String
  | 0 => []
  | n + 1 =>
    let s := generateSlug existing title
    s :: createSlugs (existing ++ [s]) title n

/-- Reference decimal digit string of a natural number (most significant
digit first); used to characterise `Nat.repr`. -/
def decChars (n : Nat) : List Char :=
  if _h : n < 10 then [Nat.digitChar n]
  else decChars (n / 10) ++ [Nat.digitChar (n % 10)]
decreasing_by
  exact Nat.div_lt_self (Nat.pos_of_ne_zero (by omega)) (by omega)

/-- Value of a decimal digit character. -/
def digitVal (c : Char) : Nat := c.toNat - 48

/-- Decimal value of a digit string, most significant digit first. -/
def decVal (cs : List Char) : Nat :=
  cs.foldl (fun acc c => acc * 10 + digitVal c) 0

/-! ### Concrete fixtures used by individual claim checks -/

/-- A portfolio with a populated artifact cache, for the cache-invalidation
check. -/
def c2Portfolio : Portfolio :=
  { id := "p1", user_id := "u1", title := "T", slug := "t", status := "draft",
    template_id := "modern-dev",
    content := .obj [("hero", .obj [("name", .str "Old")])],
    generated_html := some "STALE", generated_css := some "c",
    generated_js := some "j" }

/-- Enhancement-call outcomes for the cache-invalidation check. -/
def c2Env : EnhanceEnv :=
  { sectionCall := .success "\x7b\"projects\":[\"x\"]\x7d" 7,
    primaryCall := .success "\x7b\x7d" 1, fallbackCall := .failure "e" }

/-- A one-template registry holding the modern-dev footer fragment. -/
def c3Templates : List (String × (Json → String)) :=
  [("modern-dev", modernDevFooterFragment)]

/-- A content document with a hero name, for the render checks. -/
def c3Content : Json := .obj [("hero", .obj [("name", .str "Ada")])]

/-- A portfolio whose document has `contact.email` set, for the
whole-document merge check. -/
def c4Portfolio : Portfolio :=
  { id := "p4", user_id := "u4", title := "T", slug := "t", status := "draft",
    template_id := "modern-dev",
    content := .obj [("contact", .obj [("email", .str "a@x.com")]),
                     ("hero", .obj [("name", .str "A")])],
    generated_html := none, generated_css := none, generated_js := none }

/-- Model outcomes whose generated document has a `contact` key without
`email`. -/
def c4Env : EnhanceEnv :=
  { sectionCall := .failure "unused",
    primaryCall := .success "\x7b\"contact\":\x7b\"location\":\"NY\"\x7d\x7d" 5,
    fallbackCall := .failure "unused" }

/-- Model outcomes whose generated document lacks the `contact` key
entirely. -/
def c4wEnv : EnhanceEnv :=
  { sectionCall := .failure "unused",
    primaryCall := .success "\x7b\"hero\":\x7b\"name\":\"B\"\x7d\x7d" 5,
    fallbackCall := .failure "unused" }

/-- A portfolio with `contact.email` set, for the merge-retention
witness. -/
def c4wPortfolio : Portfolio :=
  { id := "p4w", user_id := "u4", title := "T", slug := "t", status := "draft",
    template_id := "modern-dev",
    content := .obj [("contact", .obj [("email", .str "a@x.com")])],
    generated_html := none, generated_css := none, generated_js := none }

/-- Section-call outcome for the section-scoped frame witness. -/
def c5Env : EnhanceEnv :=
  { sectionCall := .success "\x7b\"projects\":[\"P\"]\x7d" 3,
    primaryCall := .failure "unused", fallbackCall := .failure "unused" }

/-- A two-key portfolio for the section-scoped frame witness. -/
def c5Portfolio : Portfolio :=
  { id := "p5", user_id := "u5", title := "T", slug := "t", status := "draft",
    template_id := "modern-dev",
    content := .obj [("hero", .obj [("name", .str "H")]), ("projects", .arr [])],
    generated_html := none, generated_css := none, generated_js := none }

/-- A generation environment for evaluating the full-generation entry
point. -/
def c7Env : GenerateEnv :=
  { sourceEnv := { github := fun _ => .error "offline",
                   resume := fun _ => .error "offline" },
    primaryCall := .success "\x7b\x7d" 1, fallbackCall := .failure "e",
    existingSlugs := [], newPortfolioId := "p-new" }

/-- A second generation environment, for the iteration-creation check. -/
def c8Env : GenerateEnv :=
  { sourceEnv := { github := fun _ => .error "offline",
                   resume := fun _ => .error "offline" },
    primaryCall := .success "\x7b\"hero\":\x7b\"name\":\"Z\"\x7d\x7d" 2,
    fallbackCall := .failure "e", existingSlugs := [], newPortfolioId := "p8" }

/-- Source-processing oracles that always fail, for the unknown-source
checks. -/
def c10Env : SourceEnv :=
  { github := fun _ => .error "x", resume := fun _ => .error "x" }

/-! ## Helper lemmas on object field lists -/

/-- `getField` on an object is association-list lookup. -/
theorem getField_obj (l : List (String × Json)) (k : String) :
    (Json.obj l).getField k = (l.find? (fun kv => kv.1 == k)).map Prod.snd :=
  rfl

/-- Field lookup after the in-place replacement pass of `insertKV`. -/
theorem find_map_replace (l : List (String × Json)) (k' : String) (v' : Json)
    (k : String) :
    (((l.map (fun kv => if kv.1 == k' then (kv.1, v') else kv)).find?
        (fun kv => kv.1 == k)).map Prod.snd) =
      if k = k' then ((l.find? (fun kv => kv.1 == k)).map Prod.snd).map
        (fun _ => v')
      else (l.find? (fun kv => kv.1 == k)).map Prod.snd := by
  induction l with
  | nil => simp
  | cons hd tl ih =>
    obtain ⟨a, b⟩ := hd
    rw [List.map_cons]
    by_cases hak' : a = k'
    · have hh : (if ((a, b).1 == k') = true then ((a, b).1, v') else (a, b))
          = (a, v') := by simp [hak']
      rw [hh]
      by_cases hak : a = k
      · subst hak
        rw [List.find?_cons_of_pos _ (by simp),
          List.find?_cons_of_pos _ (by simp)]
        rw [if_pos (hak'.symm ▸ rfl)]
        rfl
      · rw [List.find?_cons_of_neg _ (by simp [hak]),
          List.find?_cons_of_neg _ (by simp [hak])]
        exact ih
    · have hh : (if ((a, b).1 == k') = true then ((a, b).1, v') else (a, b))
          = (a, b) := by simp [hak']
      rw [hh]
      by_cases hak : a = k
      · subst hak
        rw [List.find?_cons_of_pos _ (by simp),
          List.find?_cons_of_pos _ (by simp)]
        rw [if_neg hak']
      · rw [List.find?_cons_of_neg _ (by simp [hak]),
          List.find?_cons_of_neg _ (by simp [hak])]
        exact ih

/-- Field lookup in a list extended on the right by one binding. -/
theorem find_append_single (l : List (String × Json)) (k' : String) (v' : Json)
    (k : String) :
    (((l ++ [(k', v')]).find? (fun kv => kv.1 == k)).map Prod.snd) =
      match (l.find? (fun kv => kv.1 == k)).map Prod.snd with
      | some v => some v
      | none => if k = k' then some v' else none := by
  induction l with
  | nil =>
    rw [List.nil_append, List.find?_nil]
    by_cases h : k = k'
    · subst h
      rw [List.find?_cons_of_pos _ (by simp)]
      show some v' = if k = k then some v' else none
      rw [if_pos rfl]
    · rw [List.find?_cons_of_neg _
        (by simp only [beq_iff_eq]; exact fun hh => h hh.symm)]
      show (none : Option Json) = if k = k' then some v' else none
      rw [if_neg h]
  | cons hd tl ih =>
    obtain ⟨a, b⟩ := hd
    rw [List.cons_append]
    by_cases hak : a = k
    · subst hak
      rw [List.find?_cons_of_pos _ (by simp),
        List.find?_cons_of_pos _ (by simp)]
      rfl
    · rw [List.find?_cons_of_neg _ (by simp [hak]),
        List.find?_cons_of_neg _ (by simp [hak])]
      exact ih

/-- A key that fails the `any` scan has no binding. -/
theorem find_eq_none_of_any_false (l : List (String × Json)) (k : String)
    (h : l.any (fun kv => kv.1 == k) = false) :
    (l.find? (fun kv => kv.1 == k)).map Prod.snd = none := by
  induction l with
  | nil => simp
  | cons hd tl ih =>
    simp only [List.any_cons, Bool.or_eq_false_iff] at h
    simp only [List.find?, h.1]
    exact ih h.2

/-- A key that passes the `any` scan has a binding. -/
theorem find_isSome_of_any_true (l : List (String × Json)) (k : String)
    (h : l.any (fun kv => kv.1 == k) = true) :
    ((l.find? (fun kv => kv.1 == k)).map Prod.snd).isSome = true := by
  induction l with
  | nil => simp at h
  | cons hd tl ih =>
    simp only [List.any_cons, Bool.or_eq_true] at h
    rcases h with h | h
    · simp [List.find?, h]
    · by_cases hk : (hd.1 == k) = true
      · simp [List.find?, hk]
      · simp only [List.find?, Bool.not_eq_true] at hk ⊢
        rw [hk]
        exact ih h

/-- Lookup through `insertKV`: the inserted key reads back the inserted
value, every other key is untouched. -/
theorem getField_insertKV (l : List (String × Json)) (k' : String) (v' : Json)
    (k : String) :
    (Json.obj (insertKV l k' v')).getField k =
      if k = k' then some v' else (Json.obj l).getField k := by
  simp only [getField_obj, insertKV]
  by_cases hany : l.any (fun kv => kv.1 == k') = true
  · rw [if_pos hany, find_map_replace]
    by_cases hk : k = k'
    · subst hk
      rw [if_pos rfl, if_pos rfl]
      have hs := find_isSome_of_any_true l k hany
      cases hfind : (l.find? (fun kv => kv.1 == k)).map Prod.snd with
      | none => rw [hfind] at hs; simp at hs
      | some v => simp
    · rw [if_neg hk, if_neg hk]
  · rw [if_neg hany, find_append_single]
    have hanyf : l.any (fun kv => kv.1 == k') = false := by
      cases hb : l.any (fun kv => kv.1 == k') with
      | false => rfl
      | true => exact absurd hb hany
    by_cases hk : k = k'
    · subst hk
      rw [find_eq_none_of_any_false l k hanyf]
    · cases hfind : (l.find? (fun kv => kv.1 == k)).map Prod.snd with
      | none =>
        show (if k = k' then some v' else none) = if k = k' then some v' else none
        rfl
      | some v =>
        show some v = if k = k' then some v' else some v
        rw [if_neg hk]

/-- A key with no binding at all fails lookup. -/
theorem find_eq_none_of_not_mem_keys (l : List (String × Json)) (k : String)
    (h : k ∉ l.map Prod.fst) :
    (l.find? (fun kv => kv.1 == k)).map Prod.snd = none := by
  induction l with
  | nil => simp
  | cons hd tl ih =>
    simp only [List.map_cons, List.mem_cons, not_or] at h
    rw [List.find?_cons_of_neg _ (by simp; exact fun hh => h.1 hh.symm)]
    exact ih h.2

/-- Lookup through an object spread whose right operand has no duplicate
keys: the right operand wins where it binds the key, the left operand
fills the gaps. -/
theorem getField_spreadKVs (new : List (String × Json))
    (hnodup : (new.map Prod.fst).Nodup) (old : List (String × Json))
    (k : String) :
    (Json.obj (spreadKVs old new)).getField k =
      match (Json.obj new).getField k with
      | some v => some v
      | none => (Json.obj old).getField k := by
  induction new generalizing old with
  | nil => rfl
  | cons hd tl ih =>
    obtain ⟨k₁, v₁⟩ := hd
    simp only [List.map_cons, List.nodup_cons] at hnodup
    have hstep : spreadKVs old ((k₁, v₁) :: tl) =
        spreadKVs (insertKV old k₁ v₁) tl := rfl
    rw [hstep, ih hnodup.2]
    by_cases hk : k = k₁
    · subst hk
      rw [getField_obj tl, find_eq_none_of_not_mem_keys tl k hnodup.1]
      rw [getField_insertKV]
      rw [if_pos rfl]
      rw [getField_obj ((k, v₁) :: tl),
        List.find?_cons_of_pos _ (by simp)]
      rfl
    · rw [getField_obj ((k₁, v₁) :: tl),
        List.find?_cons_of_neg _ (by simp; exact fun hh => hk hh.symm)]
      rw [← getField_obj tl]
      cases hfind : (Json.obj tl).getField k with
      | none =>
        rw [getField_insertKV, if_neg hk]
      | some v => rfl

/-- A key the right spread operand does not bind reads from the left
operand, with no distinctness assumption. -/
theorem getField_spreadKVs_of_not_bound (new : List (String × Json))
    (k : String) :
    ∀ old : List (String × Json), (Json.obj new).getField k = none →
    (Json.obj (spreadKVs old new)).getField k = (Json.obj old).getField k := by
  induction new with
  | nil => intro old _; rfl
  | cons hd tl ih =>
    intro old h
    obtain ⟨k₁, v₁⟩ := hd
    have hk : ¬k = k₁ := by
      intro hkk
      subst hkk
      rw [getField_obj, List.find?_cons_of_pos _ (by simp)] at h
      exact Option.noConfusion h
    have htl : (Json.obj tl).getField k = none := by
      rw [getField_obj] at h ⊢
      rwa [List.find?_cons_of_neg _ (by simp; exact fun hh => hk hh.symm)] at h
    have hstep : spreadKVs old ((k₁, v₁) :: tl) =
        spreadKVs (insertKV old k₁ v₁) tl := rfl
    rw [hstep, ih (insertKV old k₁ v₁) htl, getField_insertKV, if_neg hk]

/-- Spreading a key-distinct field list into an accumulator disjoint from
it just appends. -/
theorem spreadKVs_eq_append (l : List (String × Json)) :
    ∀ acc : List (String × Json), (l.map Prod.fst).Nodup →
    (∀ kv ∈ l, acc.any (fun x => x.1 == kv.1) = false) →
    spreadKVs acc l = acc ++ l := by
  induction l with
  | nil => intro acc _ _; simp [spreadKVs]
  | cons hd tl ih =>
    intro acc hnodup hdisj
    obtain ⟨k, v⟩ := hd
    simp only [List.map_cons, List.nodup_cons] at hnodup
    have hstep : spreadKVs acc ((k, v) :: tl) =
        spreadKVs (insertKV acc k v) tl := rfl
    have hins : insertKV acc k v = acc ++ [(k, v)] := by
      unfold insertKV
      rw [if_neg]
      rw [hdisj (k, v) (List.mem_cons_self _ _)]
      simp
    rw [hstep, hins, ih (acc ++ [(k, v)]) hnodup.2, List.append_assoc]
    · rfl
    · intro kv hkv
      rw [List.any_append]
      rw [hdisj kv (List.mem_cons_of_mem _ hkv)]
      simp only [List.any_cons, List.any_nil, Bool.false_or, Bool.or_false]
      simp only [beq_eq_false_iff_ne, ne_eq]
      intro hh
      exact hnodup.1 (hh ▸ (List.mem_map_of_mem Prod.fst hkv))

/-- `{...fields}` is the identity on key-distinct field lists. -/
theorem spreadKVs_nil_eq (l : List (String × Json))
    (hnodup : (l.map Prod.fst).Nodup) : spreadKVs [] l = l := by
  have h := spreadKVs_eq_append l [] hnodup (by intro kv _; rfl)
  simpa using h

/-- `insertKV` preserves key distinctness. -/
theorem insertKV_keys_nodup (l : List (String × Json)) (k : String) (v : Json)
    (h : (l.map Prod.fst).Nodup) : ((insertKV l k v).map Prod.fst).Nodup := by
  unfold insertKV
  by_cases hany : l.any (fun kv => kv.1 == k) = true
  · rw [if_pos hany]
    have hkeys : (l.map (fun kv => if kv.1 == k then (kv.1, v) else kv)).map
        Prod.fst = l.map Prod.fst := by
      rw [List.map_map]
      apply List.map_congr_left
      intro kv _
      show (if kv.1 == k then (kv.1, v) else kv).1 = kv.1
      split <;> rfl
    rw [hkeys]
    exact h
  · rw [if_neg hany]
    have hnotmem : k ∉ l.map Prod.fst := by
      intro hmem
      apply hany
      rw [List.any_eq_true]
      obtain ⟨kv, hkv, hfst⟩ := List.mem_map.mp hmem
      exact ⟨kv, hkv, by simp [hfst]⟩
    simp only [List.map_append, List.map_cons, List.map_nil]
    rw [List.nodup_append]
    exact ⟨h, List.nodup_singleton _,
      by simp; intro a ha; exact hnotmem (List.mem_map_of_mem Prod.fst ha)⟩

/-- `spreadKVs` preserves key distinctness of the accumulator. -/
theorem spreadKVs_keys_nodup (new : List (String × Json)) :
    ∀ old : List (String × Json), ((old.map Prod.fst).Nodup) →
    ((spreadKVs old new).map Prod.fst).Nodup := by
  induction new with
  | nil => intro old h; exact h
  | cons hd tl ih =>
    intro old h
    exact ih (insertKV old hd.1 hd.2) (insertKV_keys_nodup old hd.1 hd.2 h)

/-! ## Decimal representation: `Nat.repr` is injective -/

/-- `decChars` always produces at least one digit. -/
theorem decChars_ne_nil (n : Nat) : decChars n ≠ [] := by
  rw [decChars]
  split
  · simp
  · simp

/-- `Nat.digitChar` is injective below 10. -/
theorem digitChar_inj_lt10 :
    ∀ a, a < 10 → ∀ b, b < 10 → Nat.digitChar a = Nat.digitChar b → a = b := by
  decide

/-- One-digit unfolding of `decChars`. -/
theorem decChars_lt (n : Nat) (h : n < 10) : decChars n = [Nat.digitChar n] := by
  rw [decChars]
  exact dif_pos h

/-- Multi-digit unfolding of `decChars`. -/
theorem decChars_ge (n : Nat) (h : ¬n < 10) :
    decChars n = decChars (n / 10) ++ [Nat.digitChar (n % 10)] := by
  rw [decChars]
  exact dif_neg h

/-- `decChars` is injective. -/
theorem decChars_injective : ∀ a b : Nat, decChars a = decChars b → a = b := by
  intro a
  induction a using Nat.strong_induction_on with
  | _ a ih =>
    intro b h
    by_cases ha : a < 10
    · by_cases hb : b < 10
      · rw [decChars_lt a ha, decChars_lt b hb] at h
        exact digitChar_inj_lt10 a ha b hb (List.singleton_injective h)
      · rw [decChars_lt a ha, decChars_ge b hb] at h
        have hlen := congrArg List.length h
        simp only [List.length_singleton, List.length_append] at hlen
        have := List.length_pos.mpr (decChars_ne_nil (b / 10))
        omega
    · by_cases hb : b < 10
      · rw [decChars_ge a ha, decChars_lt b hb] at h
        have hlen := congrArg List.length h
        simp only [List.length_singleton, List.length_append] at hlen
        have := List.length_pos.mpr (decChars_ne_nil (a / 10))
        omega
      · rw [decChars_ge a ha, decChars_ge b hb] at h
        obtain ⟨hfront, hlast⟩ := List.append_inj' h rfl
        have hdiv : a / 10 = b / 10 :=
          ih (a / 10) (Nat.div_lt_self (by omega) (by omega)) (b / 10) hfront
        have hmod : a % 10 = b % 10 :=
          digitChar_inj_lt10 (a % 10) (Nat.mod_lt a (by omega)) (b % 10)
            (Nat.mod_lt b (by omega)) (List.singleton_injective hlast)
        omega

/-- `Nat.toDigitsCore` with enough fuel produces exactly the decimal
digits followed by the accumulator. -/
theorem toDigitsCore_eq_decChars :
    ∀ f n acc, n < 10 ^ f → 0 < f →
    Nat.toDigitsCore 10 f n acc = decChars n ++ acc := by
  intro f
  induction f with
  | zero => intro n acc _ hf; omega
  | succ f ih =>
    intro n acc h _
    show (if n / 10 = 0 then Nat.digitChar (n % 10) :: acc
          else Nat.toDigitsCore 10 f (n / 10) (Nat.digitChar (n % 10) :: acc))
        = decChars n ++ acc
    by_cases hdiv : n / 10 = 0
    · have hn : n < 10 := by omega
      rw [if_pos hdiv, decChars_lt n hn, Nat.mod_eq_of_lt hn]
      rfl
    · have hn : ¬n < 10 := by
        intro hlt
        exact hdiv (Nat.div_eq_of_lt hlt)
      have hfpos : 0 < f := by
        by_contra hf0
        have hf : f = 0 := by omega
        subst hf
        rw [pow_one] at h
        exact hn h
      rw [if_neg hdiv, decChars_ge n hn,
        ih (n / 10) _ (Nat.nat_repr_len_aux n 10 f (by omega) h) hfpos]
      simp

/-- `Nat.repr` produces exactly the decimal digit string. -/
theorem natRepr_eq_decChars (n : Nat) : Nat.repr n = (decChars n).asString := by
  show (Nat.toDigitsCore 10 (n + 1) n []).asString = (decChars n).asString
  rw [toDigitsCore_eq_decChars (n + 1) n []
    (lt_of_lt_of_le (Nat.lt_pow_self (by omega) n)
      (Nat.pow_le_pow_right (by omega) (Nat.le_succ n))) (Nat.succ_pos n)]
  simp

/-- `Nat.repr` is injective. -/
theorem natRepr_injective : ∀ a b : Nat, Nat.repr a = Nat.repr b → a = b := by
  intro a b h
  rw [natRepr_eq_decChars, natRepr_eq_decChars] at h
  exact decChars_injective a b (List.asString_inj.mp h)

/-- Decimal strings are nonempty. -/
theorem natRepr_length_pos (n : Nat) : 0 < (Nat.repr n).length := by
  rw [natRepr_eq_decChars]
  show 0 < (decChars n).length
  exact List.length_pos.mpr (decChars_ne_nil n)

/-- `toString` on `Nat` is `Nat.repr`. -/
theorem toString_nat (n : Nat) : toString n = Nat.repr n := rfl

/-- The character data of `Nat.repr`. -/
theorem natRepr_data (n : Nat) : (Nat.repr n).data = decChars n := by
  rw [natRepr_eq_decChars]
  rfl

/-! ## Slug generation -/

/-- The candidate slugs `base`, `base-1`, `base-2`, … are pairwise
distinct. -/
theorem slugCandidate_inj (base : String) :
    ∀ i j, slugCandidate base i = slugCandidate base j → i = j := by
  have hlen : ∀ m : Nat, (base ++ "-" ++ toString (m + 1)).length =
      base.length + 1 + (Nat.repr (m + 1)).length := by
    intro m
    rw [String.length_append, String.length_append, toString_nat]
    rfl
  intro i j h
  match i, j with
  | 0, 0 => rfl
  | 0, j + 1 =>
    exfalso
    have h2 := congrArg String.length h
    rw [show slugCandidate base 0 = base from rfl,
      show slugCandidate base (j + 1) = base ++ "-" ++ toString (j + 1) from rfl,
      hlen j] at h2
    have := natRepr_length_pos (j + 1)
    omega
  | i + 1, 0 =>
    exfalso
    have h2 := congrArg String.length h
    rw [show slugCandidate base 0 = base from rfl,
      show slugCandidate base (i + 1) = base ++ "-" ++ toString (i + 1) from rfl,
      hlen i] at h2
    have := natRepr_length_pos (i + 1)
    omega
  | i + 1, j + 1 =>
    have h2 : (base ++ "-").data ++ (Nat.repr (i + 1)).data =
        (base ++ "-").data ++ (Nat.repr (j + 1)).data := by
      have h3 := congrArg String.data h
      rw [show slugCandidate base (i + 1) = (base ++ "-") ++ toString (i + 1) from rfl,
        show slugCandidate base (j + 1) = (base ++ "-") ++ toString (j + 1) from rfl,
        String.data_append, String.data_append, toString_nat, toString_nat] at h3
      exact h3
    have h4 := List.append_cancel_left h2
    rw [natRepr_data, natRepr_data] at h4
    have := decChars_injective (i + 1) (j + 1) h4
    omega

/-- Correctness of the slug-collision `while` loop: starting at candidate
`c`, if the next `kk` candidates are all taken and candidate `c + kk` is
free, the loop returns candidate `c + kk` (given enough fuel). -/
theorem generateSlugLoop_spec (existing : List String) (base : String) :
    ∀ kk c fuel,
    (∀ i, i < kk → existing.contains (slugCandidate base (c + i)) = true) →
    existing.contains (slugCandidate base (c + kk)) = false →
    kk < fuel →
    generateSlugLoop existing base fuel (slugCandidate base c) (c + 1) =
      slugCandidate base (c + kk) := by
  intro kk
  induction kk with
  | zero =>
    intro c fuel _ h2 hf
    cases fuel with
    | zero => omega
    | succ f =>
      rw [Nat.add_zero] at h2 ⊢
      simp only [generateSlugLoop]
      rw [h2]
      simp
  | succ kk ih =>
    intro c fuel h1 h2 hf
    cases fuel with
    | zero => omega
    | succ f =>
      have hc : existing.contains (slugCandidate base c) = true := by
        have := h1 0 (by omega)
        rwa [Nat.add_zero] at this
      simp only [generateSlugLoop]
      rw [hc]
      simp only [if_true]
      have hcand : base ++ "-" ++ toString (c + 1) = slugCandidate base (c + 1) := rfl
      rw [hcand]
      have hrec := ih (c + 1) f
        (fun i hi => by
          have := h1 (i + 1) (by omega)
          rwa [show c + (i + 1) = c + 1 + i by omega] at this)
        (by rwa [show c + 1 + kk = c + (kk + 1) by omega])
        (by omega)
      rwa [show c + 1 + kk = c + (kk + 1) by omega] at hrec

/-- `Portfolio.generateSlug` returns the first free candidate: if the
candidates below `kk` are all taken and candidate `kk` is free, the result
is candidate `kk`. -/
theorem generateSlug_finds (existing : List String) (title : String) (kk : Nat)
    (h1 : ∀ i, i < kk →
      existing.contains (slugCandidate (baseSlugOf title) i) = true)
    (h2 : existing.contains (slugCandidate (baseSlugOf title) kk) = false) :
    generateSlug existing title = slugCandidate (baseSlugOf title) kk := by
  classical
  have hksub : kk ≤ existing.length := by
    have hsub : ((List.range kk).map (slugCandidate (baseSlugOf title)))
        ⊆ existing := by
      intro x hx
      obtain ⟨i, hi, rfl⟩ := List.mem_map.mp hx
      exact List.elem_iff.mp (h1 i (List.mem_range.mp hi))
    have hnd : ((List.range kk).map (slugCandidate (baseSlugOf title))).Nodup :=
      List.Nodup.map (fun a b hab => slugCandidate_inj _ a b hab)
        (List.nodup_range kk)
    have hle : ((List.range kk).map (slugCandidate (baseSlugOf title))).length
        ≤ existing.length := by
      calc ((List.range kk).map (slugCandidate (baseSlugOf title))).length
          = ((List.range kk).map (slugCandidate (baseSlugOf title))).toFinset.card :=
            (List.toFinset_card_of_nodup hnd).symm
        _ ≤ existing.toFinset.card := Finset.card_le_card (fun x hx => by
            simp only [List.mem_toFinset] at hx ⊢
            exact hsub hx)
        _ ≤ existing.length := existing.toFinset_card_le
    simpa using hle
  show generateSlugLoop existing (baseSlugOf title) (existing.length + 1)
    (baseSlugOf title) 1 = slugCandidate (baseSlugOf title) kk
  have hrun := generateSlugLoop_spec existing (baseSlugOf title) kk 0
    (existing.length + 1)
    (fun i hi => by simpa using h1 i hi)
    (by simpa using h2)
    (by omega)
  simpa using hrun

/-- Repeated creation invariant: with the first `j` candidates already
persisted and all candidates fresh for the original set, the next `N`
creations take candidates `j`, `j+1`, …, `j+N-1`. -/
theorem createSlugs_eq_aux (existing : List String) (title : String) :
    ∀ N j,
    (∀ i, i < j + N →
      existing.contains (slugCandidate (baseSlugOf title) i) = false) →
    createSlugs
        (existing ++ (List.range j).map (slugCandidate (baseSlugOf title)))
        title N =
      (List.range' j N).map (slugCandidate (baseSlugOf title)) := by
  intro N
  induction N with
  | zero => intro j _; rfl
  | succ N ih =>
    intro j h
    have hnotmem : slugCandidate (baseSlugOf title) j ∉
        existing ++ (List.range j).map (slugCandidate (baseSlugOf title)) := by
      intro hmem
      rcases List.mem_append.mp hmem with hm | hm
      · have hfalse := h j (by omega)
        have htrue : existing.contains (slugCandidate (baseSlugOf title) j)
            = true := List.elem_iff.mpr hm
        rw [hfalse] at htrue
        exact Bool.noConfusion htrue
      · obtain ⟨i, hi, he⟩ := List.mem_map.mp hm
        have := slugCandidate_inj (baseSlugOf title) i j he
        have := List.mem_range.mp hi
        omega
    have hs : generateSlug
        (existing ++ (List.range j).map (slugCandidate (baseSlugOf title)))
        title = slugCandidate (baseSlugOf title) j := by
      apply generateSlug_finds
      · intro i hi
        exact List.elem_iff.mpr
          (List.mem_append_right _
            (List.mem_map_of_mem _ (List.mem_range.mpr hi)))
      · cases hb : (existing ++
            (List.range j).map (slugCandidate (baseSlugOf title))).contains
            (slugCandidate (baseSlugOf title) j) with
        | false => rfl
        | true => exact absurd (List.elem_iff.mp hb) hnotmem
    show generateSlug _ title ::
        createSlugs (_ ++ [generateSlug _ title]) title N = _
    rw [hs]
    have hE : (existing ++ (List.range j).map (slugCandidate (baseSlugOf title)))
        ++ [slugCandidate (baseSlugOf title) j] =
        existing ++ (List.range (j + 1)).map (slugCandidate (baseSlugOf title)) := by
      rw [List.range_succ, List.map_append, List.append_assoc]
      rfl
    rw [hE, ih (j + 1) (fun i hi => h i (by omega))]
    rfl

/-- C6 main form: starting from a slug set containing none of the
candidates, `N` same-title creations take candidates `0, …, N-1` and the
resulting slugs are pairwise distinct. -/
theorem createSlugs_sequence (existing : List String) (title : String)
    (N : Nat)
    (h : ∀ i, i < N →
      existing.contains (slugCandidate (baseSlugOf title) i) = false) :
    createSlugs existing title N =
      (List.range N).map (slugCandidate (baseSlugOf title)) ∧
    (createSlugs existing title N).Nodup := by
  have h0 := createSlugs_eq_aux existing title N 0
    (fun i hi => h i (by omega))
  simp only [List.range_zero, List.map_nil, List.append_nil] at h0
  have h1 : createSlugs existing title N =
      (List.range N).map (slugCandidate (baseSlugOf title)) := by
    rw [h0, ← List.range_eq_range']
  exact ⟨h1, h1 ▸ List.Nodup.map
    (fun a b hab => slugCandidate_inj _ a b hab) (List.nodup_range N)⟩

/-! ## Claim theorems -/

/-- C1 counterexample: the claim "all six top-level keys (hero, about,
projects, experience, education, contact) are present … on the
direct-parse path … and the final fallback path" is false at concrete
inputs: the fallback document lacks `experience` and `education`, and a
successfully parsed `\x7b\x7d` lacks all six keys. -/
theorem C1_counterexample :
    (parsePortfolioContent "no json here").hasKey "education" = false ∧
    (parsePortfolioContent "no json here").hasKey "experience" = false ∧
    (parsePortfolioContent "\x7b\x7d").hasKey "hero" = false :=
  ⟨rfl, rfl, rfl⟩

/-- C1 (amended): the portfolio parse never throws and always returns a
value, but performs no per-key defaulting: when the raw text (or its
fenced block) parses as JSON, the parsed value is returned verbatim, and
otherwise the static fallback document is returned, which carries exactly
the four keys `hero`, `about`, `projects`, `contact` — `experience` and
`education` are never defaulted in. -/
theorem C1_amended :
    (∀ s v, jsonParse s = some v → parsePortfolioContent s = v) ∧
    (∀ s inner v, jsonParse s = none → extractFencedJson s = some inner →
      jsonParse inner = some v → parsePortfolioContent s = v) ∧
    (∀ s inner, jsonParse s = none → extractFencedJson s = some inner →
      jsonParse inner = none →
      parsePortfolioContent s = fallbackPortfolioContent) ∧
    (∀ s, jsonParse s = none → extractFencedJson s = none →
      parsePortfolioContent s = fallbackPortfolioContent) ∧
    fallbackPortfolioContent.keys = ["hero", "about", "projects", "contact"] := by
  refine ⟨?_, ?_, ?_, ?_, rfl⟩
  · intro s v h
    unfold parsePortfolioContent
    rw [h]
  · intro s inner v h1 h2 h3
    unfold parsePortfolioContent
    rw [h1, h2]
    show (match jsonParse inner with
          | some v => v
          | none => fallbackPortfolioContent) = v
    rw [h3]
  · intro s inner h1 h2 h3
    unfold parsePortfolioContent
    rw [h1, h2]
    show (match jsonParse inner with
          | some v => v
          | none => fallbackPortfolioContent) = fallbackPortfolioContent
    rw [h3]
  · intro s h1 h2
    unfold parsePortfolioContent
    rw [h1, h2]

/-- C1 witness: each branch of the amended parse characterisation at a
concrete input. -/
theorem C1_amended_witness :
    parsePortfolioContent "\x7b\"hero\":1\x7d" = Json.obj [("hero", Json.num "1")] ∧
    parsePortfolioContent "x ```json\n\x7b\x7d\n``` y" = Json.obj [] ∧
    parsePortfolioContent "```json\nnope\n```" = fallbackPortfolioContent ∧
    parsePortfolioContent "~~~" = fallbackPortfolioContent :=
  ⟨C1_amended.1 _ _ rfl,
   C1_amended.2.1 _ _ _ rfl rfl rfl,
   C1_amended.2.2.1 _ _ rfl rfl rfl,
   C1_amended.2.2.2.1 _ rfl rfl⟩

/-- C2: persisting an enhanced document is claimed to clear the cached
`generated_html/css/js`; in the code `updateContent` only merges the
content and the cache fields survive, so a subsequent preview serves the
pre-enhancement artifact.  Evaluated at a concrete enhancement: the
enhance call succeeds, the stale cache fields survive, and the preview
route returns the stale HTML. -/
theorem C2_stale_cache_served :
    (enhancePortfolio c2Env (some c2Portfolio) (some "projects")).success
      = true ∧
    ((enhancePortfolio c2Env (some c2Portfolio) (some "projects")).portfolio.map
      Portfolio.generated_html) = some (some "STALE") ∧
    ((enhancePortfolio c2Env (some c2Portfolio) (some "projects")).portfolio.map
      (fun q => (previewPortfolio [] [] "" "" 2025 q).toOption.map Prod.fst))
      = some (some "STALE") :=
  ⟨rfl, rfl, rfl⟩

/-- C7: the claim requires every generate call to produce exactly one
terminal Iteration; in the code the generate entry point creates its
Iteration with `portfolio_id: null` against a `NOT NULL` column, so the
create throws, the run fails, and no Iteration record (hence no terminal
one) exists.  Evaluated at a concrete prompt-source generation. -/
theorem C7_generate_has_no_terminal_iteration :
    (generatePortfolio c7Env "user-1"
      [⟨"prompt", Json.obj [("description", Json.str "hi")]⟩]
      (Json.obj [])).events = [] ∧
    (generatePortfolio c7Env "user-1"
      [⟨"prompt", Json.obj [("description", Json.str "hi")]⟩]
      (Json.obj [])).success = false :=
  ⟨rfl, rfl⟩

/-- C8: the claim says the Iteration record is successfully created with
`portfolio_id` null because the field is nullable; the model declares
`allowNull: false`, so the create is rejected and the whole generation
fails.  Evaluated at the failing create and a concrete generation run. -/
theorem C8_create_with_null_portfolio_id_rejected :
    portfolioIterationCreate none "generate" "pending" =
      .error "notNull Violation: PortfolioIteration.portfolio_id cannot be null" ∧
    (generatePortfolio c8Env "user-2" [] (Json.obj [])).error =
      some "notNull Violation: PortfolioIteration.portfolio_id cannot be null" ∧
    (generatePortfolio c8Env "user-2" [] (Json.obj [])).portfolio = none :=
  ⟨rfl, rfl, rfl⟩

/-- C9: on a primary-model failure with the distinguished
`model_overloaded` code, generation retries exactly once against the
secondary model (its success is returned tagged with the fallback model,
its failure is final); any other primary error is terminal and
independent of the fallback oracle. -/
theorem C9_fallback_policy :
    (∀ text tk, aiGeneratePortfolio (.failure "model_overloaded")
        (.success text tk) =
      .ok ⟨parsePortfolioContent text, tk, fallbackModel⟩) ∧
    (∀ c, aiGeneratePortfolio (.failure "model_overloaded") (.failure c) =
      .error c) ∧
    (∀ c fb, c ≠ "model_overloaded" →
      aiGeneratePortfolio (.failure c) fb = .error c) := by
  refine ⟨fun text tk => rfl, fun c => rfl, fun c fb h => ?_⟩
  have hbeq : (c == "model_overloaded") = false := by
    simp [h]
  simp [aiGeneratePortfolio, hbeq]

/-- C9 witness: a non-overload error is terminal regardless of the
fallback outcome. -/
theorem C9_fallback_policy_witness :
    aiGeneratePortfolio (.failure "rate_limit") (.success "x" 1) =
      .error "rate_limit" :=
  C9_fallback_policy.2.2 "rate_limit" (.success "x" 1) (by decide)

/-- C10 counterexample: the claim says a source of unknown type is skipped
and contributes no entry; in the code the `default` branch only logs a
warning and the pass-through `{type, data}` record is still pushed. -/
theorem C10_counterexample :
    processSources c10Env [⟨"tiktok", Json.obj [("a", Json.num "1")]⟩] =
      [⟨"tiktok", Json.obj [("a", Json.num "1")]⟩] ∧
    (processSources c10Env [⟨"tiktok", Json.obj []⟩]).length ≠ 0 :=
  ⟨rfl, by decide⟩

/-- C10 (amended): a source whose type is not one of github, resume,
prompt, linkedin is logged and passed through unchanged — it contributes
exactly its own `{type, data}` record — while processing of the remaining
sources continues unaffected. -/
theorem C10_amended (env : SourceEnv) (t : String) (d : Json)
    (rest : List Source)
    (h1 : t ≠ "github") (h2 : t ≠ "resume") (h3 : t ≠ "prompt")
    (h4 : t ≠ "linkedin") :
    processSources env (⟨t, d⟩ :: rest) = ⟨t, d⟩ :: processSources env rest := by
  have hone : processOneSource env ⟨t, d⟩ = .ok ⟨t, d⟩ := by
    unfold processOneSource
    split
    · exact absurd (by assumption) h1
    · exact absurd (by assumption) h2
    · exact absurd (by assumption) h3
    · exact absurd (by assumption) h4
    · rfl
  show (match processOneSource env ⟨t, d⟩ with
        | .ok p => p :: processSources env rest
        | .error _ => processSources env rest) =
      ⟨t, d⟩ :: processSources env rest
  rw [hone]

/-- C10 witness: an unknown `tiktok` source is passed through and the
following prompt source is still processed. -/
theorem C10_amended_witness :
    processSources c10Env
        [⟨"tiktok", Json.null⟩,
         ⟨"prompt", Json.obj [("description", Json.str "d")]⟩] =
      ⟨"tiktok", Json.null⟩ ::
        processSources c10Env [⟨"prompt", Json.obj [("description", Json.str "d")]⟩] :=
  C10_amended c10Env "tiktok" Json.null _ (by decide) (by decide) (by decide)
    (by decide)

/-- `generateHTML` on an unregistered template id fails with the
TemplateNotFound message. -/
theorem generateHTML_find_none (templates : List (String × (Json → String)))
    (configs : List (String × Json)) (cssFile jsFile : String) (year : Nat)
    (content : Json) (tid : String)
    (hfind : (templates.find? (fun kv => kv.1 == tid)).map Prod.snd = none) :
    generateHTML templates configs cssFile jsFile year content tid =
      .error ("Template \x27" ++ tid ++ "\x27 not found") := by
  unfold generateHTML
  rw [hfind]

/-- `generateHTML` on a registered template id renders through it. -/
theorem generateHTML_find_some (templates : List (String × (Json → String)))
    (configs : List (String × Json)) (cssFile jsFile : String) (year : Nat)
    (content : Json) (tid : String) (tmpl : Json → String)
    (hfind : (templates.find? (fun kv => kv.1 == tid)).map Prod.snd
      = some tmpl) :
    generateHTML templates configs cssFile jsFile year content tid =
      .ok (renderWithTemplate tmpl
        ((configs.find? (fun kv => kv.1 == tid)).map Prod.snd)
        cssFile jsFile year content tid) := by
  unfold generateHTML
  rw [hfind]

set_option maxRecDepth 100000 in
/-- C3 counterexample: the claim that rendering depends on nothing but the
document and the startup template definitions is false — the prepared
template data embeds `new Date().getFullYear()`, and the modern-dev footer
emits it, so the same (document, templateId) renders to different bytes in
different clock years. -/
theorem C3_counterexample :
    ((generateHTML c3Templates [] "" "" 2025 c3Content "modern-dev").toOption.map
      RenderArtifact.html) ≠
    ((generateHTML c3Templates [] "" "" 2026 c3Content "modern-dev").toOption.map
      RenderArtifact.html) := by
  decide

set_option maxHeartbeats 1000000 in
/-- C3 (amended): rendering is deterministic in the document, the template
registry, the template's CSS/JS file contents and the observed clock year
— repeated calls under an identical environment snapshot are
byte-identical — and a successful render returns exactly the css/js file
texts and the requested template id alongside the html. -/
theorem C3_amended (templates : List (String × (Json → String)))
    (configs : List (String × Json)) (cssFile jsFile : String) (year : Nat)
    (content : Json) (tid : String) :
    generateHTML templates configs cssFile jsFile year content tid =
      generateHTML templates configs cssFile jsFile year content tid ∧
    (∀ art, generateHTML templates configs cssFile jsFile year content tid =
      .ok art → art.css = cssFile ∧ art.js = jsFile ∧ art.template = tid) := by
  refine ⟨rfl, fun art h => ?_⟩
  cases hfind : (templates.find? (fun kv => kv.1 == tid)).map Prod.snd with
  | none =>
    rw [generateHTML_find_none templates configs cssFile jsFile year content
      tid hfind] at h
    exact Except.noConfusion h
  | some tmpl =>
    rw [generateHTML_find_some templates configs cssFile jsFile year content
      tid tmpl hfind] at h
    injection h with h2
    rw [← h2]
    exact ⟨rfl, rfl, rfl⟩

set_option maxHeartbeats 1000000 in
/-- C3 witness: the artifact of a successful concrete render carries the
css/js file texts and the template id. -/
theorem C3_amended_witness :
    (renderWithTemplate modernDevFooterFragment none "" "" 2025 c3Content
        "modern-dev").css = "" ∧
    (renderWithTemplate modernDevFooterFragment none "" "" 2025 c3Content
        "modern-dev").js = "" ∧
    (renderWithTemplate modernDevFooterFragment none "" "" 2025 c3Content
        "modern-dev").template = "modern-dev" :=
  (C3_amended c3Templates [] "" "" 2025 c3Content "modern-dev").2 _ rfl

/-- C4 counterexample: enhancing without a section on a document whose
`contact.email` is set, when the newly generated document has a `contact`
key lacking `email`, loses the email — the shallow merge replaces the
whole `contact` object — so the claim "lacks contact.email ⟹ email is
retained" is false at this input. -/
theorem C4_counterexample :
    ((c4Portfolio.content.getField "contact").bind
      (fun c => c.getField "email")) = some (Json.str "a@x.com") ∧
    (enhancePortfolio c4Env (some c4Portfolio) none).success = true ∧
    ((enhancePortfolio c4Env (some c4Portfolio) none).portfolio.map
      (fun q => (q.content.getField "contact").bind
        (fun c => c.getField "email"))) = some none :=
  ⟨rfl, rfl, rfl⟩

/-- C4 (amended): the whole-document merge is shallow at the top level:
old values survive only where the newly generated document lacks the
entire top-level key.  In particular, when the new document has no
`contact` key at all, the persisted document retains the old `contact`
value (hence its `email`); when the new document carries a `contact` key,
that whole object replaces the old one. -/
theorem C4_amended (env : EnhanceEnv) (p : Portfolio) (text : String)
    (tk : Nat) (NF O : List (String × Json)) (c : Json)
    (hcall : env.primaryCall = .success text tk)
    (hparse : parsePortfolioContent text = .obj NF)
    (hnew : (Json.obj NF).getField "contact" = none)
    (hobj : p.content = .obj O)
    (hnodup : ((Json.obj O).keys).Nodup)
    (hold : p.content.getField "contact" = some c) :
    (enhancePortfolio env (some p) none).success = true ∧
    ((enhancePortfolio env (some p) none).portfolio.map
      (fun q => q.content.getField "contact")) = some (some c) := by
  have hnodup' : (O.map Prod.fst).Nodup := hnodup
  have hmain : enhancePortfolio env (some p) none =
      ⟨true, none, some (p.updateContent
        (jsMerge2 p.content (parsePortfolioContent text))), tk,
       [.created "enhance" "pending", .statusSet "completed"]⟩ := by
    obtain ⟨sc, pc, fc⟩ := env
    cases hcall
    rfl
  rw [hmain]
  refine ⟨rfl, ?_⟩
  show some ((p.updateContent
      (jsMerge2 p.content (parsePortfolioContent text))).content.getField
        "contact") = some (some c)
  refine congrArg some ?_
  show (jsMerge2 p.content
    (jsMerge2 p.content (parsePortfolioContent text))).getField "contact"
      = some c
  rw [hparse, hobj]
  rw [hobj] at hold
  have h1 : spreadKVs [] O = O := spreadKVs_nil_eq O hnodup'
  have hEnodup : ((spreadKVs O NF).map Prod.fst).Nodup :=
    spreadKVs_keys_nodup NF O hnodup'
  show (Json.obj (spreadKVs (spreadKVs [] O)
      (spreadKVs (spreadKVs [] O) NF))).getField "contact"
    = some c
  rw [h1]
  rw [getField_spreadKVs (spreadKVs O NF) hEnodup O "contact"]
  rw [getField_spreadKVs_of_not_bound NF "contact" O hnew]
  rw [hold]

/-- C4 witness: when the generated document lacks the `contact` key
entirely, the old `contact` (with its email) is retained. -/
theorem C4_amended_witness :
    (enhancePortfolio c4wEnv (some c4wPortfolio) none).success = true ∧
    ((enhancePortfolio c4wEnv (some c4wPortfolio) none).portfolio.map
      (fun q => q.content.getField "contact")) =
      some (some (Json.obj [("email", Json.str "a@x.com")])) :=
  C4_amended c4wEnv c4wPortfolio "\x7b\"hero\":\x7b\"name\":\"B\"\x7d\x7d" 5
    [("hero", Json.obj [("name", Json.str "B")])]
    [("contact", Json.obj [("email", Json.str "a@x.com")])]
    (Json.obj [("email", Json.str "a@x.com")])
    rfl rfl rfl rfl (by decide) rfl

/-- C5: enhancing a given section replaces only that section's key —
for every other top-level key the persisted document's value is identical
to its pre-enhancement value. -/
theorem C5_section_frame (env : EnhanceEnv) (p : Portfolio) (s text : String)
    (tk : Nat) (O : List (String × Json))
    (hcall : env.sectionCall = .success text tk)
    (hobj : p.content = .obj O)
    (hnodup : ((Json.obj O).keys).Nodup) :
    (enhancePortfolio env (some p) (some s)).success = true ∧
    (∀ k, k ≠ s → ((enhancePortfolio env (some p) (some s)).portfolio.map
      (fun q => q.content.getField k)) = some (p.content.getField k)) := by
  have hnodup' : (O.map Prod.fst).Nodup := hnodup
  have hmain : enhancePortfolio env (some p) (some s) =
      ⟨true, none, some (p.updateContent (setKeyOn p.content s
        (sectionMergeValue (parseSectionContent text s) s))), tk,
       [.created "enhance" "pending", .statusSet "completed"]⟩ := by
    obtain ⟨sc, pc, fc⟩ := env
    cases hcall
    rfl
  rw [hmain]
  refine ⟨rfl, fun k hk => ?_⟩
  show some ((p.updateContent (setKeyOn p.content s
      (sectionMergeValue (parseSectionContent text s) s))).content.getField k)
    = some (p.content.getField k)
  refine congrArg some ?_
  show (jsMerge2 p.content (setKeyOn p.content s
      (sectionMergeValue (parseSectionContent text s) s))).getField k
    = p.content.getField k
  rw [hobj]
  have h1 : spreadKVs [] O = O := spreadKVs_nil_eq O hnodup'
  have hEnodup : ((insertKV O s
      (sectionMergeValue (parseSectionContent text s) s)).map Prod.fst).Nodup :=
    insertKV_keys_nodup O s _ hnodup'
  show (Json.obj (spreadKVs (spreadKVs [] O)
      (insertKV (spreadKVs [] O) s
        (sectionMergeValue (parseSectionContent text s) s)))).getField k
    = (Json.obj O).getField k
  rw [h1]
  rw [getField_spreadKVs _ hEnodup O k]
  rw [getField_insertKV, if_neg hk]
  cases hfind : (Json.obj O).getField k with
  | none => rfl
  | some w => rfl

/-- C5 witness: enhancing the `projects` section of a concrete document
leaves the `hero` key identical to its pre-enhancement value. -/
theorem C5_section_frame_witness :
    (enhancePortfolio c5Env (some c5Portfolio) (some "projects")).success
      = true ∧
    ((enhancePortfolio c5Env (some c5Portfolio) (some "projects")).portfolio.map
      (fun q => q.content.getField "hero")) =
      some (c5Portfolio.content.getField "hero") :=
  ⟨(C5_section_frame c5Env c5Portfolio "projects" "\x7b\"projects\":[\"P\"]\x7d"
      3 _ rfl rfl (by decide)).1,
   (C5_section_frame c5Env c5Portfolio "projects" "\x7b\"projects\":[\"P\"]\x7d"
      3 _ rfl rfl (by decide)).2 "hero" (by decide)⟩

/-- C6 witness: three same-title creations for one owner yield the slugs
`my-portfolio`, `my-portfolio-1`, `my-portfolio-2`, pairwise distinct. -/
theorem createSlugs_sequence_witness :
    createSlugs [] "My Portfolio" 3 =
      ["my-portfolio", "my-portfolio-1", "my-portfolio-2"] ∧
    (createSlugs [] "My Portfolio" 3).Nodup := by
  have h := createSlugs_sequence [] "My Portfolio" 3 (fun i _ => rfl)
  exact ⟨h.1.trans (by decide), h.2⟩

end PortfolioBuilder
